import Mathlib

/-!
Verification of the camera-letter-recognition repository.

The repository is a browser demo: a camera frame is downsampled to a 28×28
grayscale tile, fed to a pre-trained classifier, and the top-k predicted
letter classes are displayed.  The source consists of several revisions of
one React component (`components/CameraPredictor.jsx`, plus the unnamed
revisions `part_000` and `part_001`) and a feedback API handler (`part_002`).

This file shallowly embeds:
  * the Ranker (`top = probs.map((p,i)=>({i,p})).sort((a,b)=>b.p-a.p)
    .slice(0,k).map(...)`), with JavaScript's `Array.prototype.sort`
    modelled as a stable descending insertion sort (ECMAScript requires
    `sort` to be stable, so equal-probability entries keep their original
    ascending-index order);
  * the Tile Preprocessor (draw to a 28×28 canvas, grayscale via channel
    mean, divide by 255, optional inversion);
  * the Loop Controller state machine (`startCamera`, `stopCamera`,
    `predictLoop` / `previewLoop`) of the relevant revisions;
  * the feedback endpoint `handler`.
-/

namespace CameraLetter

/-! ## Ranker -/

/-- A prediction as built in `predictLoop`:
`{ index: x.i, letter: String.fromCharCode(65 + x.i), p: x.p }`. -/
structure Prediction where
  index  : Nat
  letter : Char
  p      : ℚ
  deriving Repr, DecidableEq

/-- Embedding of `probs.map((p,i)=>({i,p}))`: pair each probability with its
index, the index running from `n` upward. The code uses `n = 0`. -/
def indexed (n : Nat) : List ℚ → List (Nat × ℚ)
  | [] => []
  | p :: ps => (n, p) :: indexed (n + 1) ps

/-- Stable descending insertion of one index/probability pair: the inserted
pair (which occurs earlier in the original list) passes strictly greater
probabilities and stops before the first pair whose probability is not
strictly greater, so among equal probabilities the earlier (smaller-index)
pair stays first.  This models the stable `sort((a,b)=>b.p-a.p)`. -/
def insertDesc (x : Nat × ℚ) : List (Nat × ℚ) → List (Nat × ℚ)
  | [] => [x]
  | y :: ys => if x.2 < y.2 then y :: insertDesc x ys else x :: y :: ys

/-- Stable descending sort by probability, the model of
`Array.prototype.sort` with comparator `(a,b)=>b.p-a.p`. -/
def sortDesc : List (Nat × ℚ) → List (Nat × ℚ)
  | [] => []
  | x :: xs => insertDesc x (sortDesc xs)

/-- The Ranker: pair each probability with its index, stable-sort descending
by probability, take the first `k`, and map index `i` to the letter with
character code `65 + i` (`String.fromCharCode(65 + x.i)`).  The component
instantiates `k = 3` (`.slice(0,3)`). -/
def topK (probs : List ℚ) (k : Nat) : List Prediction :=
  ((sortDesc (indexed 0 probs)).take k).map
    (fun x => { index := x.1, letter := Char.ofNat (65 + x.1), p := x.2 })

/-! ### Ranker lemmas -/

theorem mem_insertDesc {z x : Nat × ℚ} :
    ∀ {l : List (Nat × ℚ)}, z ∈ insertDesc x l → z = x ∨ z ∈ l
  | [], h => by simpa [insertDesc] using h
  | y :: ys, h => by
    by_cases hxy : x.2 < y.2
    · simp only [insertDesc, if_pos hxy, List.mem_cons] at h
      rcases h with h | h
      · exact Or.inr (by simp [h])
      · rcases mem_insertDesc h with h' | h'
        · exact Or.inl h'
        · exact Or.inr (List.mem_cons_of_mem y h')
    · simp only [insertDesc, if_neg hxy, List.mem_cons] at h
      rcases h with h | h | h
      · exact Or.inl h
      · exact Or.inr (by simp [h])
      · exact Or.inr (List.mem_cons_of_mem y h)

theorem mem_sortDesc {z : Nat × ℚ} :
    ∀ {l : List (Nat × ℚ)}, z ∈ sortDesc l → z ∈ l
  | [], h => by simp [sortDesc] at h
  | x :: xs, h => by
    rcases mem_insertDesc (l := sortDesc xs) h with h' | h'
    · simp [h']
    · exact List.mem_cons_of_mem x (mem_sortDesc h')

/-- The order the stable descending sort establishes: probabilities weakly
decrease, and among equal probabilities the index strictly increases. -/
def SortRel (a b : Nat × ℚ) : Prop :=
  b.2 ≤ a.2 ∧ (a.2 ≤ b.2 → a.1 < b.1)

theorem pairwise_insertDesc {x : Nat × ℚ} :
    ∀ {l : List (Nat × ℚ)}, l.Pairwise SortRel →
      (∀ y ∈ l, x.2 = y.2 → x.1 < y.1) → (insertDesc x l).Pairwise SortRel
  | [], _, _ => by simp [insertDesc]
  | y :: ys, hl, hx => by
    rcases List.pairwise_cons.mp hl with ⟨hy, hys⟩
    by_cases hxy : x.2 < y.2
    · simp only [insertDesc, if_pos hxy]
      refine List.pairwise_cons.mpr ⟨?_, ?_⟩
      · intro z hz
        rcases mem_insertDesc hz with rfl | hz'
        · exact ⟨le_of_lt hxy, fun h => absurd hxy (not_lt.mpr h)⟩
        · exact hy z hz'
      · exact pairwise_insertDesc hys (fun z hz h =>
          hx z (List.mem_cons_of_mem y hz) h)
    · simp only [insertDesc, if_neg hxy]
      refine List.pairwise_cons.mpr ⟨?_, hl⟩
      intro z hz
      rcases List.mem_cons.mp hz with rfl | hz'
      · exact ⟨not_lt.mp hxy, fun h =>
          hx z (List.mem_cons_self z ys) (le_antisymm h (not_lt.mp hxy))⟩
      · rcases hy z hz' with ⟨hz1, hz2⟩
        refine ⟨le_trans hz1 (not_lt.mp hxy), fun h => ?_⟩
        exact hx z (List.mem_cons_of_mem y hz')
          (le_antisymm h (le_trans hz1 (not_lt.mp hxy)))

theorem pairwise_sortDesc :
    ∀ {l : List (Nat × ℚ)}, l.Pairwise (fun a b => a.1 < b.1) →
      (sortDesc l).Pairwise SortRel
  | [], _ => by simp [sortDesc]
  | x :: xs, hl => by
    rcases List.pairwise_cons.mp hl with ⟨hx, hxs⟩
    exact pairwise_insertDesc (pairwise_sortDesc hxs)
      (fun y hy _ => hx y (mem_sortDesc hy))

theorem indexed_index_ge {n : Nat} :
    ∀ {l : List ℚ} {y : Nat × ℚ}, y ∈ indexed n l → n ≤ y.1
  | [], _, h => by simp [indexed] at h
  | p :: ps, y, h => by
    rcases List.mem_cons.mp h with rfl | h'
    · exact le_refl n
    · exact le_trans (Nat.le_succ n) (indexed_index_ge h')

theorem pairwise_indexed {n : Nat} :
    ∀ {l : List ℚ}, (indexed n l).Pairwise (fun a b => a.1 < b.1)
  | [] => by simp [indexed]
  | p :: ps => by
    refine List.pairwise_cons.mpr ⟨?_, pairwise_indexed⟩
    intro y hy
    exact lt_of_lt_of_le (Nat.lt_succ_self n) (indexed_index_ge hy)

theorem length_insertDesc (x : Nat × ℚ) :
    ∀ l : List (Nat × ℚ), (insertDesc x l).length = l.length + 1
  | [] => rfl
  | y :: ys => by
    by_cases hxy : x.2 < y.2
    · simp [insertDesc, if_pos hxy, length_insertDesc x ys]
    · simp [insertDesc, if_neg hxy]

theorem length_sortDesc :
    ∀ l : List (Nat × ℚ), (sortDesc l).length = l.length
  | [] => rfl
  | x :: xs => by
    simp [sortDesc, length_insertDesc, length_sortDesc xs]

theorem length_indexed (n : Nat) :
    ∀ l : List ℚ, (indexed n l).length = l.length
  | [] => rfl
  | p :: ps => by simp [indexed, length_indexed (n + 1) ps]

theorem topK_pairwise (probs : List ℚ) (k : Nat) :
    (topK probs k).Pairwise
      (fun a b => b.p ≤ a.p ∧ (a.p = b.p → a.index < b.index)) := by
  have hs : (sortDesc (indexed 0 probs)).Pairwise SortRel :=
    pairwise_sortDesc pairwise_indexed
  have ht : ((sortDesc (indexed 0 probs)).take k).Pairwise SortRel :=
    hs.sublist (List.take_sublist k _)
  refine List.pairwise_map.mpr (ht.imp ?_)
  intro a b hab
  exact ⟨hab.1, fun h => hab.2 (le_of_eq h)⟩

/-! ## Tile Preprocessor

The component draws the current video frame onto a 28×28 canvas
(`sctx.drawImage(videoRef.current, 0, 0, 28, 28)`), reads it back as 8-bit
RGB (`tf.browser.fromPixels`, values 0–255), reduces the channels to one
grayscale value (`t.mean(2)` in `CameraPredictor.jsx`; `part_001` uses the
weighted-luma `rgbToGrayscale`, the spec treats either as acceptable and we
embed the channel mean), and divides by 255 to land in [0,1]. -/

/-- One 8-bit RGB pixel as produced by the canvas / `fromPixels`. -/
structure Pixel where
  r : Fin 256
  g : Fin 256
  b : Fin 256

/-- A camera frame: a pixel grid of the given dimensions. -/
structure Frame where
  width  : Nat
  height : Nat
  pixel  : Nat → Nat → Pixel

/-- Error raised on a Frame with degenerate (zero) dimensions. -/
inductive PreprocessError where
  | degenerate
  deriving Repr, DecidableEq

/-- Downsampling of the frame to 28×28, the effect of
`drawImage(video, 0, 0, 28, 28)`.  The browser's resampling filter is
platform code outside this repository; the spec allows any deterministic
resampling with exact 28×28 output, so we model nearest-neighbour
sampling. -/
def resample28 (f : Frame) : List (List Pixel) :=
  (List.range 28).map fun y =>
    (List.range 28).map fun x =>
      f.pixel (x * f.width / 28) (y * f.height / 28)

/-- Grayscale reduction `t.mean(2)` followed by `t.div(255.0)`: the mean of
the three 8-bit channels, scaled to [0,1]. -/
def grayNorm (px : Pixel) : ℚ :=
  ((px.r.val + px.g.val + px.b.val : ℕ) : ℚ) / 3 / 255

/-- Modelled from the spec: the `invert` switch of
`preprocess(frame, invert)`.  In every revision of the source the inversion
is the commented-out line `// t = tf.sub(1, t);`; the spec's step 4 reads
"If `invert` is enabled, replace each value `v` with `1 − v`". -/
def applyInvert (invert : Bool) (v : ℚ) : ℚ :=
  if invert then 1 - v else v

/-- The Tile Preprocessor `preprocess(frame, invert)`: 28×28 rows of
single-channel values.  Modelled from the spec: the degenerate-dimension
guard (`PreprocessError` exactly when width or height is zero) appears only
in the spec's §4.2 contract, not as repository code; the happy path is the
`tf.tidy` block of `predictLoop`. -/
def preprocess (f : Frame) (invert : Bool) :
    Except PreprocessError (List (List ℚ)) :=
  if f.width = 0 ∨ f.height = 0 then
    .error .degenerate
  else
    .ok ((resample28 f).map fun row => row.map fun px =>
      applyInvert invert (grayNorm px))

theorem grayNorm_nonneg (px : Pixel) : 0 ≤ grayNorm px := by
  unfold grayNorm
  positivity

theorem grayNorm_le_one (px : Pixel) : grayNorm px ≤ 1 := by
  unfold grayNorm
  rw [div_div, div_le_one (by norm_num)]
  have hr : (px.r.val : ℚ) ≤ 255 := by exact_mod_cast Nat.lt_succ_iff.mp px.r.isLt
  have hg : (px.g.val : ℚ) ≤ 255 := by exact_mod_cast Nat.lt_succ_iff.mp px.g.isLt
  have hb : (px.b.val : ℚ) ≤ 255 := by exact_mod_cast Nat.lt_succ_iff.mp px.b.isLt
  push_cast
  linarith

theorem applyInvert_mem_unit {v : ℚ} (invert : Bool)
    (h0 : 0 ≤ v) (h1 : v ≤ 1) :
    0 ≤ applyInvert invert v ∧ applyInvert invert v ≤ 1 := by
  cases invert <;> simp [applyInvert] <;> constructor <;> linarith

/-! ## Loop Controller state machine

The component's mutable state (`useState` hooks and the `rafRef`/`videoRef`
refs) is gathered into one record; classifier handles and media streams are
opaque and represented by numeric ids.  Counters record how many times each
external effect has been performed, so that "no preprocessing or inference
occurs" is expressible as the counters staying put. -/

/-- The component state plus effect counters:
`tileDraws` counts `sctx.drawImage(video, 0, 0, 28, 28)` calls,
`previewDraws` counts scaled draws onto the preview canvas,
`tensorOps` counts `tf.tidy` tensor constructions,
`inferCalls` counts `model.predict` calls,
`camRequests` counts `getUserMedia` calls. -/
structure LoopState where
  model        : Option Nat
  running      : Bool
  preds        : List Prediction
  errMsg       : Option String
  stream       : Option Nat
  videoSrc     : Option Nat
  videoPlaying : Bool
  raf          : Bool
  tileDraws    : Nat
  previewDraws : Nat
  tensorOps    : Nat
  inferCalls   : Nat
  camRequests  : Nat
  deriving Repr, DecidableEq

/-- Environment of one `startCamera` call: the outcome of the
`getUserMedia` request (a stream id, or a rejection message). -/
structure StartEnv where
  camGrant : Except String Nat
  deriving Repr

/-- Environment of one loop iteration: whether the video element is
non-null and has `readyState ≥ 2`, and the outcome of `model.predict`
plus the `tensorOut.data()` read on the current tile. -/
structure LoopEnv where
  videoReady  : Bool
  inferResult : Except String (List ℚ)
  deriving Repr

/-- Embedding of `startCamera` from `part_000` (lines 68–87) and
`part_001` (lines 69–87): `if (running) return;` — only an already-running
loop blocks the call; the model may be absent.  On a camera grant the
stream is attached, the video plays, `running` is set, and a first loop
iteration is scheduled (`if (!rafRef.current) rafRef.current =
requestAnimationFrame(...)`). -/
def startCamera (s : LoopState) (env : StartEnv) : LoopState :=
  if s.running then s
  else
    match env.camGrant with
    | .error e =>
        { s with camRequests := s.camRequests + 1, errMsg := some e }
    | .ok sid =>
        { s with camRequests := s.camRequests + 1, videoSrc := some sid,
                 stream := some sid, videoPlaying := true, running := true,
                 raf := true }

/-- Embedding of the second `startCamera` revision inside
`CameraPredictor.jsx` (lines 198–211): `if (running || !model) return;` —
this revision also blocks the call when the classifier handle is absent. -/
def startCameraGated (s : LoopState) (env : StartEnv) : LoopState :=
  if s.running || s.model.isNone then s
  else
    match env.camGrant with
    | .error e =>
        { s with camRequests := s.camRequests + 1, errMsg := some e }
    | .ok sid =>
        { s with camRequests := s.camRequests + 1, videoSrc := some sid,
                 stream := some sid, videoPlaying := true, running := true,
                 raf := true }

/-- Embedding of `stopCamera` (`part_001` lines 90–108): clear the running
flag, cancel the scheduled animation frame (`cancelAnimationFrame` and
`rafRef.current = null`), stop and drop the stream, pause the video and
detach its source. -/
def stopCamera (s : LoopState) : LoopState :=
  { s with running := false, raf := false, stream := none,
           videoPlaying := false, videoSrc := none }

/-- Embedding of one `predictLoop` iteration (`part_001` lines 111–202):
liveness check first (`if (!running) { rafRef.current = null; return; }`),
then the readiness guard (model present, video element non-null and ready),
then the 28×28 draw, the preview draw, the tensor construction, and
`model.predict`; a successful prediction publishes the top-3, a failure is
caught and recorded in `errMsg`; either way the next iteration is
scheduled. -/
def predictLoop (s : LoopState) (env : LoopEnv) : LoopState :=
  if !s.running then { s with raf := false }
  else if s.model.isNone || !env.videoReady then { s with raf := true }
  else
    let s1 := { s with tileDraws := s.tileDraws + 1,
                       previewDraws := s.previewDraws + 1,
                       tensorOps := s.tensorOps + 1,
                       inferCalls := s.inferCalls + 1 }
    match env.inferResult with
    | .ok probs => { s1 with preds := topK probs 3, raf := true }
    | .error e => { s1 with errMsg := some e, raf := true }

/-- Embedding of one `previewLoop` iteration (`part_000` lines 111–139):
liveness check first, then the element/readiness guard, then only the
28×28 draw and the preview draw — no tensor work and no prediction. -/
def previewLoop (s : LoopState) (env : LoopEnv) : LoopState :=
  if !s.running then { s with raf := false }
  else if !env.videoReady then { s with raf := true }
  else
    { s with tileDraws := s.tileDraws + 1,
             previewDraws := s.previewDraws + 1, raf := true }

/-! ## Feedback endpoint -/

/-- Body of a JSON response sent by the feedback endpoint. -/
inductive RespBody where
  | okTrue
  | err (msg : String)
  deriving Repr, DecidableEq

/-- An HTTP response: status code and JSON body. -/
structure ApiResponse where
  status : Nat
  body   : RespBody
  deriving Repr, DecidableEq

/-- An incoming request: its method, and the outcome of reading `req.body`
(the `try` block catches a failing body access). -/
structure ApiRequest where
  method : String
  body   : Except String String
  deriving Repr

/-- Embedding of the feedback endpoint `handler` (`part_002`): non-POST
methods get 405 `{error: "Only POST"}`; otherwise the body is read inside
`try` and answered with 200 `{ok: true}`, or 500 `{error: "server error"}`
when the read throws. -/
def handler (req : ApiRequest) : ApiResponse :=
  if req.method ≠ "POST" then ⟨405, .err "Only POST"⟩
  else
    match req.body with
    | .ok _ => ⟨200, .okTrue⟩
    | .error _ => ⟨500, .err "server error"⟩

/-! ## Auxiliary facts about the preprocessor -/

theorem length_resample28 (f : Frame) : (resample28 f).length = 28 := by
  simp [resample28]

theorem row_length_resample28 (f : Frame) :
    ∀ row ∈ resample28 f, row.length = 28 := by
  intro row hrow
  simp only [resample28, List.mem_map] at hrow
  obtain ⟨y, _, rfl⟩ := hrow
  simp

/-! ## Claims -/

/-- C1: `topK` pairs each probability with its index, sorts the pairs
descending by probability, takes the first `k` (the component instantiates
the default `k = 3`), and maps each index `i` to the letter with character
code `65 + i`; in particular on `[0.1, 0.7, 0.05, 0.15]` with `k = 2` it
returns exactly `[(index 1, 'B', 0.7), (index 3, 'D', 0.15)]`.  The theorem
also records that the output is descending in probability and has length
`min k (length probs)`. -/
theorem C1_topK_behaviour :
    topK [1/10, 7/10, 1/20, 3/20] 2 =
      [⟨1, 'B', 7/10⟩, ⟨3, 'D', 3/20⟩] ∧
    (∀ probs k, ∀ e ∈ topK probs k,
      e.letter = Char.ofNat (65 + e.index)) ∧
    (∀ probs k, (topK probs k).length = min k probs.length) ∧
    (∀ probs k,
      ((topK probs k).map Prediction.p).Pairwise (fun a b => b ≤ a)) := by
  refine ⟨by norm_num [topK, indexed, sortDesc, insertDesc], ?_, ?_, ?_⟩
  · intro probs k e he
    simp only [topK, List.mem_map] at he
    obtain ⟨x, _, rfl⟩ := he
    rfl
  · intro probs k
    simp [topK, length_sortDesc, length_indexed]
  · intro probs k
    rw [List.pairwise_map]
    exact (topK_pairwise probs k).imp (fun h => h.1)

/-- Witness for C1 at the concrete entry `(1, 'B', 0.7)` of the example
vector. -/
theorem C1_topK_behaviour_witness :
    Prediction.letter ⟨1, 'B', 7/10⟩ =
      Char.ofNat (65 + Prediction.index ⟨1, 'B', 7/10⟩) :=
  C1_topK_behaviour.2.1 [1/10, 7/10, 1/20, 3/20] 2 ⟨1, 'B', 7/10⟩
    (by norm_num [topK, indexed, sortDesc, insertDesc])

/-- C2: `topK` is stable — for every probability vector, entries with equal
probability appear in the output in ascending index order; in particular on
a vector with a duplicate maximum 0.9 at indices 2 and 5, the returned
order places index 2 before index 5. -/
theorem C2_topK_stable :
    (∀ probs k, (topK probs k).Pairwise
      (fun a b => a.p = b.p → a.index < b.index)) ∧
    topK [1/10, 1/5, 9/10, 3/10, 2/5, 9/10] 3 =
      [⟨2, 'C', 9/10⟩, ⟨5, 'F', 9/10⟩, ⟨4, 'E', 2/5⟩] := by
  refine ⟨?_, by norm_num [topK, indexed, sortDesc, insertDesc]⟩
  intro probs k
  exact (topK_pairwise probs k).imp (fun h => h.2)

/-- C3: for every valid Frame (positive width and height), `preprocess`
returns a Tile of exactly 28×28×1 values (28 rows of 28 single-channel
values), and every value lies in [0,1]. -/
theorem C3_preprocess_shape (f : Frame) (invert : Bool)
    (hw : 0 < f.width) (hh : 0 < f.height) :
    ∃ t, preprocess f invert = .ok t ∧ t.length = 28 ∧
      (∀ row ∈ t, row.length = 28) ∧
      (∀ row ∈ t, ∀ v ∈ row, 0 ≤ v ∧ v ≤ 1) := by
  have hguard : ¬(f.width = 0 ∨ f.height = 0) := by
    rintro (h | h) <;> omega
  refine ⟨(resample28 f).map fun row => row.map fun px =>
    applyInvert invert (grayNorm px), ?_, ?_, ?_, ?_⟩
  · simp [preprocess, hguard]
  · simp [length_resample28]
  · intro row hrow
    simp only [List.mem_map] at hrow
    obtain ⟨row0, hrow0, rfl⟩ := hrow
    simp [row_length_resample28 f row0 hrow0]
  · intro row hrow v hv
    simp only [List.mem_map] at hrow
    obtain ⟨row0, _, rfl⟩ := hrow
    simp only [List.mem_map] at hv
    obtain ⟨px, _, rfl⟩ := hv
    exact applyInvert_mem_unit invert (grayNorm_nonneg px) (grayNorm_le_one px)

/-- A concrete 2×2 frame of one constant pixel, used as a witness input. -/
def frameW : Frame :=
  { width := 2, height := 2, pixel := fun _ _ => ⟨100, 150, 200⟩ }

/-- Witness for C3 on the concrete frame `frameW`. -/
theorem C3_preprocess_shape_witness :
    ∃ t, preprocess frameW false = .ok t ∧ t.length = 28 ∧
      (∀ row ∈ t, row.length = 28) ∧
      (∀ row ∈ t, ∀ v ∈ row, 0 ≤ v ∧ v ≤ 1) :=
  C3_preprocess_shape frameW false (by decide) (by decide)

/-- C6: for every Frame, each value of `preprocess(frame, invert := true)`
equals `1 −` the corresponding value of `preprocess(frame, invert :=
false)`, elementwise over the 28×28 Tile (stated as an equality of the
whole result under the elementwise map `v ↦ 1 − v`; the error case is
identical on both sides). -/
theorem C6_preprocess_invert_elementwise (f : Frame) :
    preprocess f true =
      Except.map (fun t => t.map fun row => row.map fun v => (1 : ℚ) - v)
        (preprocess f false) := by
  have hfun : (fun px => applyInvert true (grayNorm px)) =
      (fun v => (1 : ℚ) - v) ∘ fun px => applyInvert false (grayNorm px) := by
    funext px
    simp [applyInvert]
  unfold preprocess
  by_cases h : f.width = 0 ∨ f.height = 0
  · rw [if_pos h, if_pos h]
    rfl
  · rw [if_neg h, if_neg h]
    simp only [Except.map, List.map_map, Function.comp_def, hfun]

/-- C8: `preprocess` never raises for a Frame with positive width and
height, and raises `PreprocessError` exactly when the Frame's width or
height is zero — a raises-iff contract. -/
theorem C8_preprocess_raises_iff (f : Frame) (invert : Bool) :
    (∃ e, preprocess f invert = .error e) ↔
      (f.width = 0 ∨ f.height = 0) := by
  unfold preprocess
  by_cases h : f.width = 0 ∨ f.height = 0
  · rw [if_pos h]
    exact ⟨fun _ => h, fun _ => ⟨.degenerate, rfl⟩⟩
  · rw [if_neg h]
    simp [h]

/-! ## Concrete states and environments used as witness inputs -/

/-- An idle component state with no classifier handle and zeroed
counters. -/
def idleNoModel : LoopState :=
  { model := none, running := false, preds := [], errMsg := none,
    stream := none, videoSrc := none, videoPlaying := false, raf := false,
    tileDraws := 0, previewDraws := 0, tensorOps := 0, inferCalls := 0,
    camRequests := 0 }

/-- A running component state with a loaded classifier handle. -/
def runState : LoopState :=
  { idleNoModel with running := true, model := some 0, raf := true }

/-- A `getUserMedia` grant delivering stream id 7. -/
def grantEnv : StartEnv := { camGrant := .ok 7 }

/-- A loop environment with a ready video element and a failing
`model.predict`. -/
def failEnv : LoopEnv := { videoReady := true, inferResult := .error "boom" }

/-- A loop environment with a ready video element and a successful
`model.predict`. -/
def okEnv : LoopEnv := { videoReady := true, inferResult := .ok [1/2, 1/2] }

/-- C4 counterexample: in the second `startCamera` revision inside
`CameraPredictor.jsx` (lines 198–211, `if (running || !model) return;`),
calling `start()` with the classifier handle absent is a no-op — `running`
stays false and no loop iteration is scheduled, so the claim that "start()
still succeeds: the loop runs" is false on that revision at the concrete
idle, model-absent state. -/
theorem C4_start_without_model_counterexample :
    (startCameraGated idleNoModel grantEnv).running = false ∧
    (startCameraGated idleNoModel grantEnv).raf = false ∧
    startCameraGated idleNoModel grantEnv = idleNoModel := by
  refine ⟨rfl, rfl, rfl⟩

/-- C4 amended: in the `part_000` revision (`startCamera` lines 68–87 and
`previewLoop` lines 111–139), when the classifier handle is absent
`start()` still succeeds — the loop runs, each ready iteration refreshes
the displayed Tile preview, the Prediction Set is left unchanged (in
particular stays empty) and no inference occurs; in the second
`CameraPredictor.jsx` revision, `start()` with an absent handle is a
no-op. -/
theorem C4_amended_start_without_model (s : LoopState) (env : StartEnv)
    (lenv : LoopEnv) (sid : Nat)
    (_hm : s.model = none) (hr : s.running = false)
    (hg : env.camGrant = .ok sid) (hv : lenv.videoReady = true) :
    (startCamera s env).running = true ∧
    (startCamera s env).raf = true ∧
    (startCamera s env).preds = s.preds ∧
    (previewLoop (startCamera s env) lenv).previewDraws
        = s.previewDraws + 1 ∧
    (previewLoop (startCamera s env) lenv).tileDraws = s.tileDraws + 1 ∧
    (previewLoop (startCamera s env) lenv).preds = s.preds ∧
    (previewLoop (startCamera s env) lenv).inferCalls = s.inferCalls ∧
    (previewLoop (startCamera s env) lenv).tensorOps = s.tensorOps ∧
    (previewLoop (startCamera s env) lenv).raf = true := by
  simp [startCamera, hr, hg, previewLoop, hv]

/-- Witness for the amended C4 at the concrete idle model-absent state. -/
theorem C4_amended_start_without_model_witness :
    (startCamera idleNoModel grantEnv).running = true ∧
    (startCamera idleNoModel grantEnv).raf = true ∧
    (startCamera idleNoModel grantEnv).preds = idleNoModel.preds ∧
    (previewLoop (startCamera idleNoModel grantEnv) okEnv).previewDraws
        = idleNoModel.previewDraws + 1 ∧
    (previewLoop (startCamera idleNoModel grantEnv) okEnv).tileDraws
        = idleNoModel.tileDraws + 1 ∧
    (previewLoop (startCamera idleNoModel grantEnv) okEnv).preds
        = idleNoModel.preds ∧
    (previewLoop (startCamera idleNoModel grantEnv) okEnv).inferCalls
        = idleNoModel.inferCalls ∧
    (previewLoop (startCamera idleNoModel grantEnv) okEnv).tensorOps
        = idleNoModel.tensorOps ∧
    (previewLoop (startCamera idleNoModel grantEnv) okEnv).raf = true :=
  C4_amended_start_without_model idleNoModel grantEnv okEnv 7
    rfl rfl rfl rfl

/-- C5: after `stop()` the liveness flag is cleared and the queued
animation frame is cancelled, and a loop iteration that executes anyway
exits at its liveness check: it performs no 28×28 draw, no tensor
preprocessing and no inference, and mutates no state — `predictLoop` on the
stopped state returns it unchanged (its `raf` field is already false). -/
theorem C5_stop_cancels_iterations (s : LoopState) (env : LoopEnv) :
    (stopCamera s).running = false ∧
    (stopCamera s).raf = false ∧
    predictLoop (stopCamera s) env = stopCamera s ∧
    (predictLoop (stopCamera s) env).tileDraws = s.tileDraws ∧
    (predictLoop (stopCamera s) env).tensorOps = s.tensorOps ∧
    (predictLoop (stopCamera s) env).inferCalls = s.inferCalls ∧
    (predictLoop (stopCamera s) env).preds = s.preds := by
  refine ⟨rfl, rfl, ?_, ?_, ?_, ?_, ?_⟩ <;>
    simp [stopCamera, predictLoop]

/-- C7: if `model.predict` fails during a loop iteration, the iteration's
prediction update is skipped — the previously published Prediction Set is
unchanged — the error is recorded, and the next iteration is scheduled; the
loop is not terminated. -/
theorem C7_infer_failure_nonfatal (s : LoopState) (env : LoopEnv)
    (m : Nat) (e : String)
    (hr : s.running = true) (hm : s.model = some m)
    (hv : env.videoReady = true) (he : env.inferResult = .error e) :
    (predictLoop s env).preds = s.preds ∧
    (predictLoop s env).raf = true ∧
    (predictLoop s env).running = true ∧
    (predictLoop s env).errMsg = some e := by
  simp [predictLoop, hr, hm, hv, he]

/-- Witness for C7 at a concrete running state and failing inference. -/
theorem C7_infer_failure_nonfatal_witness :
    (predictLoop runState failEnv).preds = runState.preds ∧
    (predictLoop runState failEnv).raf = true ∧
    (predictLoop runState failEnv).running = true ∧
    (predictLoop runState failEnv).errMsg = some "boom" :=
  C7_infer_failure_nonfatal runState failEnv 0 "boom" rfl rfl rfl rfl

/-- C9: calling `start()` while already running is a no-op — the entire
state (running flag, stream, classifier handle, Prediction Set) is
unchanged and no camera request is made. -/
theorem C9_start_noop_when_running (s : LoopState) (env : StartEnv)
    (h : s.running = true) :
    startCamera s env = s ∧
    (startCamera s env).camRequests = s.camRequests := by
  have hs : startCamera s env = s := by simp [startCamera, h]
  exact ⟨hs, by rw [hs]⟩

/-- Witness for C9 at a concrete running state. -/
theorem C9_start_noop_when_running_witness :
    startCamera runState grantEnv = runState ∧
    (startCamera runState grantEnv).camRequests = runState.camRequests :=
  C9_start_noop_when_running runState grantEnv rfl

/-- C10: the feedback endpoint answers 405 `{error: "Only POST"}` to every
non-POST request without reading the body, 200 `{ok: true}` to every POST
whose body is read successfully, 500 `{error: "server error"}` to a POST
whose body read throws, and no other response is possible. -/
theorem C10_handler_responses (req : ApiRequest) :
    (req.method ≠ "POST" →
      handler req = ⟨405, .err "Only POST"⟩ ∧
      ∀ b, handler { req with body := b } = handler req) ∧
    (req.method = "POST" → ∀ s, req.body = .ok s →
      handler req = ⟨200, .okTrue⟩) ∧
    (req.method = "POST" → ∀ e, req.body = .error e →
      handler req = ⟨500, .err "server error"⟩) ∧
    (handler req = ⟨405, .err "Only POST"⟩ ∨
      handler req = ⟨200, .okTrue⟩ ∨
      handler req = ⟨500, .err "server error"⟩) := by
  by_cases hm : req.method = "POST"
  · refine ⟨fun h => absurd hm h, ?_, ?_, ?_⟩
    · intro _ s hs
      simp [handler, hm, hs]
    · intro _ e he
      simp [handler, hm, he]
    · rcases hb : req.body with b | b
      · exact Or.inr (Or.inr (by simp [handler, hm, hb]))
      · exact Or.inr (Or.inl (by simp [handler, hm, hb]))
  · refine ⟨fun _ => ⟨by simp [handler, hm], fun b => by simp [handler, hm]⟩,
      fun h => absurd h hm, fun h => absurd h hm, ?_⟩
    exact Or.inl (by simp [handler, hm])

/-- Witness for C10 on a concrete GET request. -/
theorem C10_handler_responses_witness :
    handler { method := "GET", body := .ok "x" } =
      ⟨405, .err "Only POST"⟩ :=
  ((C10_handler_responses { method := "GET", body := .ok "x" }).1
    (by decide)).1

end CameraLetter
